import Mathlib

/-!
Verification of the data-poisoning-attack notebooks.

The repository holds two Jupyter notebooks demonstrating a data poisoning
attack on a logistic-regression classifier trained through a differentiable
convex-optimization layer: a PyTorch version (src/unnamed/part_000) and a
TensorFlow version (src/examples/tf/data_poisoning_attack.ipynb).

This file shallowly embeds, in exact real arithmetic:
  - the convex objective each notebook hands to CvxpyLayer
    (cp.logistic in the PyTorch notebook, cp.log_sum_exp over the stacked
    pair [0, X a + b] with nonneg lambda parameters in the TensorFlow one);
  - the test-loss each notebook differentiates
    (300 * torch.nn.BCEWithLogitsLoss in the PyTorch notebook,
    30 * tf.keras.losses.BinaryCrossentropy, applied to the raw affine
    predictions, in the TensorFlow one);
  - the notebooks themselves as linear statement lists, with a small
    sequential runner for failure-propagation and file-output facts;
  - the seeded data-generation cells and the autodiff steps as explicit
    state-passing functions.
-/

namespace DataPoisoning

/-- cvxpy's logistic atom: logistic(z) = log(1 + exp z).  Used in the PyTorch
notebook's log-likelihood (src/unnamed/part_000, cp.logistic). -/
noncomputable def logisticFn (z : ℝ) : ℝ := Real.log (1 + Real.exp z)

/-- cvxpy's log_sum_exp of a two-element vector, as applied row-wise to the
stacked pair [0, X a + b] in the TensorFlow notebook
(cp.log_sum_exp(cp.hstack([np.zeros((m,1)), X @ a + b]).T, axis=0)). -/
noncomputable def logSumExp2 (z1 z2 : ℝ) : ℝ := Real.log (Real.exp z1 + Real.exp z2)

/-- The logistic sigmoid, sigma(z) = 1 / (1 + exp (-z)). -/
noncomputable def sigmoid (z : ℝ) : ℝ := 1 / (1 + Real.exp (-z))

/-- Per-example value of torch.nn.BCEWithLogitsLoss: binary cross-entropy of
the label y against sigma(z), with z the raw logit.  This is the form the
PyTorch documentation gives (the sigmoid is fused into the loss). -/
noncomputable def bceWithLogits (z y : ℝ) : ℝ :=
  -(y * Real.log (sigmoid z) + (1 - y) * Real.log (1 - sigmoid z))

/-- Keras' probability-clipping constant: tf.keras' binary_crossentropy clips
predicted probabilities to [eps, 1 - eps] with eps = 1e-7 before taking logs. -/
noncomputable def kerasEps : ℝ := 1 / 10000000

/-- Clip a predicted probability into [kerasEps, 1 - kerasEps], as
tf.keras.losses.BinaryCrossentropy does. -/
noncomputable def kerasClip (p : ℝ) : ℝ := max kerasEps (min (1 - kerasEps) p)

/-- Per-example value of tf.keras.losses.BinaryCrossentropy with the default
from_logits=False: the prediction p is treated directly as a probability
(after clipping).  In the TensorFlow notebook p is the raw affine prediction
Xtest @ slope + intercept, with no sigmoid applied. -/
noncomputable def kerasBce (y p : ℝ) : ℝ :=
  -(y * Real.log (kerasClip p) + (1 - y) * Real.log (1 - kerasClip p))

/-- Mean of f over a list (both losses use reduction "mean"). -/
noncomputable def listMean {α : Type} (f : α → ℝ) (xs : List α) : ℝ :=
  (xs.map f).sum / xs.length

/-- The scalar quantity the PyTorch notebook backpropagates:
loss = 300 * torch.nn.BCEWithLogitsLoss()((Xtest @ a + b).squeeze(), ytest),
as a function of the list of (logit, label) pairs on the test set. -/
noncomputable def torchTestLoss (pts : List (ℝ × ℝ)) : ℝ :=
  300 * listMean (fun p => bceWithLogits p.1 p.2) pts

/-- The scalar quantity the TensorFlow notebook differentiates through the
tape: test_loss = 30 * tf.keras.losses.BinaryCrossentropy()(ytest, Xtest @
slope + intercept), as a function of the list of (prediction, label) pairs. -/
noncomputable def tfTestLoss (pts : List (ℝ × ℝ)) : ℝ :=
  30 * listMean (fun p => kerasBce p.2 p.1) pts

/-- The test loss as both notebooks' markdown defines it:
L_test(theta) = (1/M) * sum_i ell(theta; x_i, y_i) with the logistic loss
ell = log(1 + exp z) - y * z, z the logit of the test point. -/
noncomputable def specTestLoss (pts : List (ℝ × ℝ)) : ℝ :=
  listMean (fun p => logisticFn p.1 - p.2 * p.1) pts

/-- Dot product of a data row with the coefficient vector a. -/
noncomputable def dotProd {n : ℕ} (x a : Fin n → ℝ) : ℝ := ∑ j, x j * a j

/-- The PyTorch notebook's log_likelihood expression:
(1/m) * cp.sum(cp.multiply(Y, X @ a + b) - cp.logistic(X @ a + b)). -/
noncomputable def logLikTorch {m n : ℕ} (X : Fin m → Fin n → ℝ) (Y : Fin m → ℝ)
    (a : Fin n → ℝ) (b : ℝ) : ℝ :=
  (1 / (m : ℝ)) * ∑ i, (Y i * (dotProd (X i) a + b) - logisticFn (dotProd (X i) a + b))

/-- The PyTorch notebook's regularization expression:
- 0.1 * cp.norm(a, 1) - 0.1 * cp.sum_squares(a). -/
noncomputable def regTorch {n : ℕ} (a : Fin n → ℝ) : ℝ :=
  -(0.1 * ∑ j, |a j|) - 0.1 * ∑ j, (a j) ^ 2

/-- Objective of the problem the PyTorch notebook maximizes:
cp.Maximize(log_likelihood + regularization). -/
noncomputable def objTorch {m n : ℕ} (X : Fin m → Fin n → ℝ) (Y : Fin m → ℝ)
    (a : Fin n → ℝ) (b : ℝ) : ℝ :=
  logLikTorch X Y a b + regTorch a

/-- The TensorFlow notebook's log_likelihood expression: identical to the
PyTorch one except that the logistic term is written as the row-wise
log_sum_exp of the stacked pair [0, X a + b]. -/
noncomputable def logLikTF {m n : ℕ} (X : Fin m → Fin n → ℝ) (Y : Fin m → ℝ)
    (a : Fin n → ℝ) (b : ℝ) : ℝ :=
  (1 / (m : ℝ)) * ∑ i, (Y i * (dotProd (X i) a + b) - logSumExp2 0 (dotProd (X i) a + b))

/-- The TensorFlow notebook's regularization expression, with the elastic-net
weights taken as cvxpy Parameters lambda1, lambda2:
- lambda1 * cp.norm(a, 1) - lambda2 * cp.sum_squares(a). -/
noncomputable def regTF {n : ℕ} (l1 l2 : ℝ) (a : Fin n → ℝ) : ℝ :=
  -(l1 * ∑ j, |a j|) - l2 * ∑ j, (a j) ^ 2

/-- Objective of the problem the TensorFlow notebook maximizes, as a function
of the parameter values lambda1, lambda2 (both fed the value 0.1). -/
noncomputable def objTF {m n : ℕ} (X : Fin m → Fin n → ℝ) (Y : Fin m → ℝ)
    (l1 l2 : ℝ) (a : Fin n → ℝ) (b : ℝ) : ℝ :=
  logLikTF X Y a b + regTF l1 l2 a

/-- The objective exactly as claim C3 words it: the maximum-likelihood
objective for logistic regression with elastic-net regularization,
(1/m) * sum_i [Y_i (x_i^T a + b) - log(1 + exp(x_i^T a + b))]
- 0.1 * norm1(a) - 0.1 * norm2(a)^2. -/
noncomputable def claimObjC3 {m n : ℕ} (X : Fin m → Fin n → ℝ) (Y : Fin m → ℝ)
    (a : Fin n → ℝ) (b : ℝ) : ℝ :=
  (1 / (m : ℝ)) *
      ∑ i, (Y i * (dotProd (X i) a + b) - Real.log (1 + Real.exp (dotProd (X i) a + b)))
    - 0.1 * ∑ j, |a j| - 0.1 * ∑ j, (a j) ^ 2

/- Core identities. -/

lemma logSumExp2_zero_left (z : ℝ) : logSumExp2 0 z = logisticFn z := by
  unfold logSumExp2 logisticFn
  rw [Real.exp_zero]

lemma one_add_exp_pos (z : ℝ) : (0 : ℝ) < 1 + Real.exp z := by positivity

/-- Closed form of BCEWithLogitsLoss: bceWithLogits z y = log(1 + exp z) - y*z,
which is exactly the logistic loss ell of the notebooks' markdown. -/
lemma bceWithLogits_eq (z y : ℝ) : bceWithLogits z y = logisticFn z - y * z := by
  have hE : (0 : ℝ) < Real.exp (-z) := Real.exp_pos _
  have hD : (0 : ℝ) < 1 + Real.exp (-z) := one_add_exp_pos _
  have h1 : Real.log (sigmoid z) = -Real.log (1 + Real.exp (-z)) := by
    unfold sigmoid
    rw [one_div, Real.log_inv]
  have h2 : 1 - sigmoid z = Real.exp (-z) / (1 + Real.exp (-z)) := by
    unfold sigmoid
    field_simp
  have h3 : Real.log (1 - sigmoid z) = -z - Real.log (1 + Real.exp (-z)) := by
    rw [h2, Real.log_div (ne_of_gt hE) (ne_of_gt hD), Real.log_exp]
  have h4 : Real.log (1 + Real.exp (-z)) = Real.log (1 + Real.exp z) - z := by
    have hsplit : 1 + Real.exp (-z) = (1 + Real.exp z) * Real.exp (-z) := by
      rw [add_mul, one_mul, ← Real.exp_add]
      ring_nf
      rw [Real.exp_zero]
      ring
    rw [hsplit, Real.log_mul (ne_of_gt (one_add_exp_pos z)) (Real.exp_ne_zero _),
      Real.log_exp]
    ring
  unfold bceWithLogits logisticFn
  rw [h1, h3, h4]
  ring

lemma objTF_eq_objTorch {m n : ℕ} (X : Fin m → Fin n → ℝ) (Y : Fin m → ℝ)
    (a : Fin n → ℝ) (b : ℝ) : objTF X Y 0.1 0.1 a b = objTorch X Y a b := by
  unfold objTF objTorch logLikTF logLikTorch regTF regTorch
  simp only [logSumExp2_zero_left]

lemma objTorch_eq_claimObj {m n : ℕ} (X : Fin m → Fin n → ℝ) (Y : Fin m → ℝ)
    (a : Fin n → ℝ) (b : ℝ) : objTorch X Y a b = claimObjC3 X Y a b := by
  unfold objTorch claimObjC3 logLikTorch regTorch logisticFn
  ring

/-- C3: The convex problem handed to CvxpyLayer in each notebook maximizes the
elastic-net-regularized logistic-regression log-likelihood
(1/m) * sum_i [Y_i (x_i^T a + b) - log(1 + exp(x_i^T a + b))]
- 0.1*norm1(a) - 0.1*norm2(a)^2 over (a, b): both notebooks' objectives, with
the TensorFlow parameters lambda1 = lambda2 = 0.1, equal that formula. -/
theorem c3_objective_is_elastic_net_logreg {m n : ℕ} (X : Fin m → Fin n → ℝ)
    (Y : Fin m → ℝ) (a : Fin n → ℝ) (b : ℝ) :
    objTorch X Y a b = claimObjC3 X Y a b ∧
      objTF X Y 0.1 0.1 a b = claimObjC3 X Y a b := by
  refine ⟨objTorch_eq_claimObj X Y a b, ?_⟩
  rw [objTF_eq_objTorch]
  exact objTorch_eq_claimObj X Y a b

/-- C8: log_sum_exp(0, z) = log(1 + exp z) = logistic(z) for every real z, so
with the supplied values lambda1 = lambda2 = 0.1 the TensorFlow notebook's
objective is exactly the same function of (a, b) as the PyTorch notebook's. -/
theorem c8_log_sum_exp_logistic_equivalence :
    (∀ z : ℝ, logSumExp2 0 z = Real.log (1 + Real.exp z) ∧ logSumExp2 0 z = logisticFn z) ∧
      ∀ (m n : ℕ) (X : Fin m → Fin n → ℝ) (Y : Fin m → ℝ) (a : Fin n → ℝ) (b : ℝ),
        objTF X Y 0.1 0.1 a b = objTorch X Y a b := by
  constructor
  · intro z
    exact ⟨logSumExp2_zero_left z, logSumExp2_zero_left z⟩
  · intro m n X Y a b
    exact objTF_eq_objTorch X Y a b

/- Concrete evaluations of the three test-loss functions at the single
(logit, label) pair (1, 1). -/

lemma torchTestLoss_at_11 :
    torchTestLoss [((1 : ℝ), (1 : ℝ))] = 300 * (Real.log (1 + Real.exp 1) - 1) := by
  unfold torchTestLoss listMean
  simp [bceWithLogits_eq, logisticFn]

lemma specTestLoss_at_11 :
    specTestLoss [((1 : ℝ), (1 : ℝ))] = Real.log (1 + Real.exp 1) - 1 := by
  unfold specTestLoss listMean
  simp [logisticFn]

lemma kerasClip_one : kerasClip 1 = 1 - kerasEps := by
  unfold kerasClip kerasEps
  rw [min_eq_left (by norm_num), max_eq_right (by norm_num)]

lemma tfTestLoss_at_11 :
    tfTestLoss [((1 : ℝ), (1 : ℝ))] = 30 * (-Real.log (1 - kerasEps)) := by
  unfold tfTestLoss listMean kerasBce
  simp [kerasClip_one]

/- Numeric separation: the TensorFlow loss at (1, 1) is tiny while the spec
test loss is at least 1/4 and the PyTorch loss at least 75. -/

lemma log_one_add_exp_one_lb : (5 / 4 : ℝ) ≤ Real.log (1 + Real.exp 1) := by
  have he3 : Real.exp 1 < 3 := lt_trans Real.exp_one_lt_d9 (by norm_num)
  have hepos : (0 : ℝ) < Real.exp 1 := Real.exp_pos 1
  have hD : (0 : ℝ) < 1 + Real.exp 1 := by linarith
  have h := Real.add_one_le_exp (-(1 / (1 + Real.exp 1)))
  have h2 : Real.exp 1 / (1 + Real.exp 1) ≤ Real.exp (-(1 / (1 + Real.exp 1))) := by
    have heq : -(1 / (1 + Real.exp 1)) + 1 = Real.exp 1 / (1 + Real.exp 1) := by
      field_simp
    linarith [h, heq]
  have h3 : Real.log (Real.exp 1 / (1 + Real.exp 1)) ≤ -(1 / (1 + Real.exp 1)) := by
    have hlog := (Real.log_le_log_iff (by positivity) (Real.exp_pos _)).mpr h2
    rwa [Real.log_exp] at hlog
  have h4 : Real.log (Real.exp 1 / (1 + Real.exp 1)) = 1 - Real.log (1 + Real.exp 1) := by
    rw [Real.log_div (ne_of_gt hepos) (ne_of_gt hD), Real.log_exp]
  have h5 : (1 : ℝ) / 4 ≤ 1 / (1 + Real.exp 1) :=
    one_div_le_one_div_of_le hD (by linarith)
  rw [h4] at h3
  linarith

lemma neg_log_one_sub_eps_lt : -Real.log (1 - kerasEps) < 1 / 120 := by
  have h2 : (1 : ℝ) / 120 + 1 ≤ Real.exp (1 / 120) := Real.add_one_le_exp _
  have hpos : (0 : ℝ) < Real.exp (1 / 120) := Real.exp_pos _
  have h1 : Real.exp (-(1 / 120 : ℝ)) < 1 - kerasEps := by
    rw [Real.exp_neg, inv_eq_one_div]
    have h4 : 1 / Real.exp (1 / 120 : ℝ) ≤ 1 / (1 / 120 + 1) :=
      one_div_le_one_div_of_le (by norm_num) h2
    have h5 : (1 : ℝ) / (1 / 120 + 1) < 1 - kerasEps := by
      unfold kerasEps
      norm_num
    linarith
  have h6 : Real.log (Real.exp (-(1 / 120 : ℝ))) < Real.log (1 - kerasEps) :=
    Real.log_lt_log (Real.exp_pos _) h1
  rw [Real.log_exp] at h6
  linarith

lemma tf_lt_spec_at_11 :
    tfTestLoss [((1 : ℝ), (1 : ℝ))] < specTestLoss [((1 : ℝ), (1 : ℝ))] := by
  rw [tfTestLoss_at_11, specTestLoss_at_11]
  have h1 := neg_log_one_sub_eps_lt
  have h2 := log_one_add_exp_one_lb
  linarith

lemma tf_lt_torch_at_11 :
    tfTestLoss [((1 : ℝ), (1 : ℝ))] < torchTestLoss [((1 : ℝ), (1 : ℝ))] := by
  rw [tfTestLoss_at_11, torchTestLoss_at_11]
  have h1 := neg_log_one_sub_eps_lt
  have h2 := log_one_add_exp_one_lb
  linarith

/- Derivatives of one-dimensional slices of the three losses, at the test
logit z = 1 with label y = 1. -/

lemma torch_slice_eq :
    (fun z : ℝ => torchTestLoss [(z, 1)]) =
      fun z : ℝ => 300 * (Real.log (1 + Real.exp z) - z) := by
  funext z
  unfold torchTestLoss listMean
  simp [bceWithLogits_eq, logisticFn]

lemma spec_slice_eq :
    (fun z : ℝ => specTestLoss [(z, 1)]) =
      fun z : ℝ => Real.log (1 + Real.exp z) - z := by
  funext z
  unfold specTestLoss listMean
  simp [logisticFn]

lemma hasDerivAt_logistic_sub :
    HasDerivAt (fun z : ℝ => Real.log (1 + Real.exp z) - z)
      (Real.exp 1 / (1 + Real.exp 1) - 1) 1 := by
  have h1 : HasDerivAt (fun z : ℝ => 1 + Real.exp z) (Real.exp 1) 1 :=
    (Real.hasDerivAt_exp 1).const_add 1
  have h2 : HasDerivAt (fun z : ℝ => Real.log (1 + Real.exp z))
      (Real.exp 1 / (1 + Real.exp 1)) 1 :=
    h1.log (ne_of_gt (one_add_exp_pos 1))
  exact h2.sub (hasDerivAt_id 1)

lemma torch_slice_deriv :
    deriv (fun z : ℝ => torchTestLoss [(z, 1)]) 1 =
      300 * (Real.exp 1 / (1 + Real.exp 1) - 1) := by
  rw [torch_slice_eq]
  exact (hasDerivAt_logistic_sub.const_mul 300).deriv

lemma spec_slice_deriv :
    deriv (fun z : ℝ => specTestLoss [(z, 1)]) 1 =
      Real.exp 1 / (1 + Real.exp 1) - 1 := by
  rw [spec_slice_eq]
  exact hasDerivAt_logistic_sub.deriv

lemma slice_deriv_neg : Real.exp 1 / (1 + Real.exp 1) - 1 < 0 := by
  have h1 : Real.exp 1 / (1 + Real.exp 1) < 1 := by
    rw [div_lt_one (one_add_exp_pos 1)]
    linarith [Real.exp_pos 1]
  linarith

/-- Near z = 1 the keras clip saturates at 1 - kerasEps, so the TensorFlow
test-loss slice is locally constant there and its derivative is 0. -/
lemma tf_slice_deriv_zero : deriv (fun z : ℝ => tfTestLoss [(z, 1)]) 1 = 0 := by
  have hlt : (1 - kerasEps : ℝ) < 1 := by
    unfold kerasEps
    norm_num
  have hev : (fun z : ℝ => tfTestLoss [(z, 1)]) =ᶠ[nhds 1]
      fun _ : ℝ => 30 * (-Real.log (1 - kerasEps)) := by
    filter_upwards [eventually_gt_nhds hlt] with z hz
    have hclip : kerasClip z = 1 - kerasEps := by
      unfold kerasClip
      rw [min_eq_left hz.le, max_eq_right]
      unfold kerasEps
      norm_num
    unfold tfTestLoss listMean kerasBce
    simp [hclip]
  rw [hev.deriv_eq]
  exact deriv_const 1 _

/- Seeded data generation (claims C1 and C9).  The data-generation cells set
the framework RNG seed (torch.manual_seed(0) resp. tf.random.set_seed(0)) and
the numpy seed (np.random.seed(0)) before any sampling; make_blobs and
train_test_split then draw only from the numpy stream. -/

/-- State of the two random number generators visible to a notebook cell:
the numpy global RNG and the ML framework's RNG. -/
structure RngState where
  np : ℕ
  fw : ℕ

/-- np.random.seed(k): replaces the numpy RNG state by the state determined by
the seed k, leaving the framework RNG alone. -/
def npSeed (k : ℕ) (s : RngState) : RngState := ⟨k, s.fw⟩

/-- torch.manual_seed(k) / tf.random.set_seed(k): replaces the framework RNG
state, leaving the numpy RNG alone. -/
def fwSeed (k : ℕ) (s : RngState) : RngState := ⟨s.np, k⟩

/-- The PyTorch notebook's data-generation cell, abstracted over the sampling
functions: torch.manual_seed(0); np.random.seed(0); make_blobs draws from the
numpy stream (mb, returning the blobs and the advanced stream state);
train_test_split shuffles from the same stream (sp).  The ambient RNG states
at cell entry are an explicit argument. -/
def torchDataGen (D S : Type) (mb : ℕ → D × ℕ) (sp : ℕ → D → S)
    (ambient : RngState) : S :=
  let s1 := fwSeed 0 ambient
  let s2 := npSeed 0 s1
  let r := mb s2.np
  sp r.2 r.1

/-- The TensorFlow notebook's data-generation cell: identical to the PyTorch
one except that the framework seed call is tf.random.set_seed(0). -/
def tfDataGen (D S : Type) (mb : ℕ → D × ℕ) (sp : ℕ → D → S)
    (ambient : RngState) : S :=
  let s1 := fwSeed 0 ambient
  let s2 := npSeed 0 s1
  let r := mb s2.np
  sp r.2 r.1

/-- C9: dataset generation is deterministic.  Both RNGs are seeded before any
sampling, so the split produced by either notebook's data-generation cell does
not depend on the ambient RNG states: any two executions yield identical
Xtrain, Xtest, ytrain, ytest. -/
theorem c9_seeded_datagen_deterministic (D S : Type) (mb : ℕ → D × ℕ)
    (sp : ℕ → D → S) (s1 s2 : RngState) :
    torchDataGen D S mb sp s1 = torchDataGen D S mb sp s2 ∧
      tfDataGen D S mb sp s1 = tfDataGen D S mb sp s2 :=
  ⟨rfl, rfl⟩

/-- C1 (corrected): the two notebooks declare the same convex optimization
problem and build the same seeded dataset, but the test losses they
differentiate are different functions — 300 * BCEWithLogitsLoss on logits in
the PyTorch notebook versus 30 * keras BinaryCrossentropy on the raw affine
predictions in the TensorFlow one — so the Xtrain_grad values differ by more
than the choice of autodiff framework; at the (prediction, label) pair (1, 1)
the two differentiated losses already disagree. -/
theorem c1_same_problem_different_losses :
    (∀ (m n : ℕ) (X : Fin m → Fin n → ℝ) (Y : Fin m → ℝ) (a : Fin n → ℝ) (b : ℝ),
        objTF X Y 0.1 0.1 a b = objTorch X Y a b) ∧
      (∀ (D S : Type) (mb : ℕ → D × ℕ) (sp : ℕ → D → S) (s1 s2 : RngState),
        torchDataGen D S mb sp s1 = tfDataGen D S mb sp s2) ∧
      torchTestLoss [((1 : ℝ), (1 : ℝ))] ≠ tfTestLoss [((1 : ℝ), (1 : ℝ))] := by
  refine ⟨fun m n X Y a b => objTF_eq_objTorch X Y a b, fun D S mb sp s1 s2 => rfl, ?_⟩
  exact ne_of_gt tf_lt_torch_at_11

/-- C1 counterexample: the gradients computed by the two notebooks are not the
same function of the data.  Along the slice where a single test point has
label 1 and prediction z, at z = 1 the PyTorch loss has nonzero derivative
300 * (sigma(1) - 1) while the TensorFlow loss (whose keras clip saturates at
1 - 1e-7 there) has derivative 0. -/
theorem c1_counterexample_gradients_differ :
    deriv (fun z : ℝ => torchTestLoss [(z, 1)]) 1 ≠
      deriv (fun z : ℝ => tfTestLoss [(z, 1)]) 1 := by
  rw [torch_slice_deriv, tf_slice_deriv_zero]
  have h := slice_deriv_neg
  intro hc
  nlinarith

/-- C2 (corrected): Xtrain_grad is the gradient not of the test loss
L_test(theta) = (1/M) * sum_i ell(theta; x_i, y_i) itself but of a scaled
surrogate: the PyTorch notebook backpropagates 300 * L_test (BCEWithLogitsLoss
is exactly the mean logistic loss, then multiplied by 300), and the TensorFlow
notebook differentiates 30 * keras BinaryCrossentropy of the raw affine
predictions, which differs from L_test already in value at (1, 1). -/
theorem c2_grad_is_of_scaled_loss :
    (∀ pts : List (ℝ × ℝ), torchTestLoss pts = 300 * specTestLoss pts) ∧
      tfTestLoss [((1 : ℝ), (1 : ℝ))] ≠ specTestLoss [((1 : ℝ), (1 : ℝ))] := by
  constructor
  · intro pts
    unfold torchTestLoss specTestLoss
    have hfun : (fun p : ℝ × ℝ => bceWithLogits p.1 p.2) =
        fun p : ℝ × ℝ => logisticFn p.1 - p.2 * p.1 := by
      funext p
      exact bceWithLogits_eq p.1 p.2
    rw [hfun]
  · exact ne_of_lt tf_lt_spec_at_11

/-- C2 counterexample: the derivative of the quantity the PyTorch notebook
backpropagates is 300 times the derivative of L_test, so the two disagree
wherever the latter is nonzero; concretely they differ on the slice through
the single test point (z, 1) at z = 1. -/
theorem c2_counterexample_scaled_derivative :
    deriv (fun z : ℝ => torchTestLoss [(z, 1)]) 1 ≠
      deriv (fun z : ℝ => specTestLoss [(z, 1)]) 1 := by
  rw [torch_slice_deriv, spec_slice_deriv]
  have h := slice_deriv_neg
  intro hc
  nlinarith

/- The notebooks as linear scripts (claims C4, C6, C7).  Each notebook is
embedded as the ordered list of its top-level statements, classified by kind.
The kind tryCatch exists in the statement language (Python has try/except)
but occurs in neither notebook. -/

/-- Kind of a top-level notebook statement. -/
inductive StmtKind where
  | libImport
  | seedFramework
  | seedNumpy
  | assign
  | makeBlobsCall
  | trainTestSplitCall
  | tensorConvert
  | requiresGradCall
  | cvxVar
  | cvxParam
  | cvxExpr
  | cvxProblem
  | layerConstruct
  | layerForward
  | lossConstruct
  | backwardCall
  | tapeWatch
  | tapeGradientCall
  | gradRead
  | sklearnFit
  | plotCmd
  | savefigCall
  | showCall
  | tryCatch
deriving DecidableEq

/-- A notebook statement: its kind and the list of files it writes. -/
structure Stmt where
  kind : StmtKind
  writes : List String
deriving DecidableEq

/-- Statement with no file output. -/
def st (k : StmtKind) : Stmt := ⟨k, []⟩

/-- The PyTorch notebook (src/unnamed/part_000) as its ordered list of
top-level statements.  Cell 1: five imports.  Cell 2: sklearn imports, seeds,
n and N, make_blobs, train_test_split, torch.from_numpy conversion,
requires_grad_, m, cvxpy variables a and b, parameter X, Y, log_likelihood,
regularization, problem, CvxpyLayer.  Cell 3: LogisticRegression import,
fit_logreg(Xtrain), loss construction, loss.backward(), Xtrain_grad read.
Cell 4: lr construction and fit, plotting assignments, plot commands,
plt.savefig("data_poisoning.pdf"), plt.show(). -/
def torchStmts : List Stmt :=
  [st .libImport, st .libImport, st .libImport, st .libImport, st .libImport,
   st .libImport, st .libImport,
   st .seedFramework, st .seedNumpy,
   st .assign, st .assign,
   st .makeBlobsCall, st .trainTestSplitCall,
   st .tensorConvert, st .requiresGradCall, st .assign,
   st .cvxVar, st .cvxVar, st .cvxParam, st .assign,
   st .cvxExpr, st .cvxExpr, st .cvxProblem, st .layerConstruct,
   st .libImport,
   st .layerForward, st .lossConstruct, st .backwardCall, st .gradRead,
   st .assign, st .sklearnFit,
   st .assign, st .assign, st .assign, st .assign, st .assign,
   st .assign, st .assign, st .assign,
   st .plotCmd, st .plotCmd, st .plotCmd, st .plotCmd,
   st .plotCmd, st .plotCmd,
   st .plotCmd, st .plotCmd, st .plotCmd,
   Stmt.mk .savefigCall ["data_poisoning.pdf"],
   st .showCall]

/-- The TensorFlow notebook (src/examples/tf/data_poisoning_attack.ipynb) as
its ordered list of top-level statements.  Cell 1: five imports.  Cell 2:
sklearn imports, seeds, n and N, make_blobs, train_test_split, tf.constant
conversion, m, the two lambda constants, cvxpy variables, the three
parameters lambda1, lambda2, X, Y, log_likelihood, regularization, problem,
CvxpyLayer.  Cell 3: LogisticRegression import, loss object construction,
tape.watch, fit_logreg call, test_loss construction, tape.gradient.  Cell 4:
lr construction and fit, plotting assignments, plot commands, plt.show()
(no savefig). -/
def tfStmts : List Stmt :=
  [st .libImport, st .libImport, st .libImport, st .libImport, st .libImport,
   st .libImport, st .libImport,
   st .seedFramework, st .seedNumpy,
   st .assign, st .assign,
   st .makeBlobsCall, st .trainTestSplitCall,
   st .tensorConvert, st .assign,
   st .assign, st .assign,
   st .cvxVar, st .cvxVar, st .cvxParam, st .cvxParam, st .cvxParam, st .assign,
   st .cvxExpr, st .cvxExpr, st .cvxProblem, st .layerConstruct,
   st .libImport,
   st .lossConstruct, st .tapeWatch, st .layerForward, st .lossConstruct,
   st .tapeGradientCall,
   st .assign, st .sklearnFit,
   st .assign, st .assign, st .assign, st .assign, st .assign,
   st .assign, st .assign, st .assign,
   st .plotCmd, st .plotCmd, st .plotCmd, st .plotCmd,
   st .plotCmd, st .plotCmd,
   st .plotCmd, st .plotCmd, st .plotCmd,
   st .showCall]

/-- Sequential notebook runner.  Each statement is interpreted as a fallible
state transformer; the runner executes statements in order with no handler of
its own, stopping at the first error and returning the state reached so far
together with the error, if any. -/
def run {σ ε : Type} (interp : Stmt → σ → Except ε σ) :
    List Stmt → σ → σ × Option ε
  | [], s => (s, none)
  | stmt :: rest, s =>
    match interp stmt s with
    | Except.error e => (s, some e)
    | Except.ok s1 => run interp rest s1

/-- Files created or modified by a list of statements. -/
def filesWritten : List Stmt → List String
  | [] => []
  | stmt :: rest => stmt.writes ++ filesWritten rest

/-- Index of the first statement of the given kind. -/
def kindIdx (stmts : List Stmt) (k : StmtKind) : ℕ :=
  stmts.findIdx fun s => decide (s.kind = k)

/-- Number of statements of the given kind. -/
def kindCount (stmts : List Stmt) (k : StmtKind) : ℕ :=
  stmts.countP fun s => decide (s.kind = k)

/-- C4: each notebook is a linear script in which dataset generation, the
forward call to the optimization layer, the backward/gradient computation and
the final chart rendering each occur exactly once and in this order; in
particular the layer's forward function is invoked exactly once and the
gradient is computed exactly once per notebook. -/
theorem c4_linear_script_single_calls :
    (kindCount torchStmts .makeBlobsCall = 1 ∧
     kindCount torchStmts .trainTestSplitCall = 1 ∧
     kindCount torchStmts .layerForward = 1 ∧
     kindCount torchStmts .backwardCall = 1 ∧
     kindCount torchStmts .tapeGradientCall = 0 ∧
     kindCount torchStmts .showCall = 1 ∧
     kindIdx torchStmts .makeBlobsCall < kindIdx torchStmts .layerForward ∧
     kindIdx torchStmts .layerForward < kindIdx torchStmts .backwardCall ∧
     kindIdx torchStmts .backwardCall < kindIdx torchStmts .showCall) ∧
    (kindCount tfStmts .makeBlobsCall = 1 ∧
     kindCount tfStmts .trainTestSplitCall = 1 ∧
     kindCount tfStmts .layerForward = 1 ∧
     kindCount tfStmts .tapeGradientCall = 1 ∧
     kindCount tfStmts .backwardCall = 0 ∧
     kindCount tfStmts .showCall = 1 ∧
     kindIdx tfStmts .makeBlobsCall < kindIdx tfStmts .layerForward ∧
     kindIdx tfStmts .layerForward < kindIdx tfStmts .tapeGradientCall ∧
     kindIdx tfStmts .tapeGradientCall < kindIdx tfStmts .showCall) := by
  decide

/-- C6: neither notebook contains failure-handling logic of its own — no
statement of either notebook is a try/except — and the sequential runner has
no handler either: execution of a statement list raises exactly the error the
first failing library call raises, with the notebook state left as it was at
the point of failure, and succeeds when every call succeeds. -/
theorem c6_no_failure_handling :
    (torchStmts.all fun s => decide (s.kind ≠ StmtKind.tryCatch)) = true ∧
    (tfStmts.all fun s => decide (s.kind ≠ StmtKind.tryCatch)) = true ∧
    (∀ (σ ε : Type) (interp : Stmt → σ → Except ε σ) (s : σ),
      run interp [] s = (s, none)) ∧
    (∀ (σ ε : Type) (interp : Stmt → σ → Except ε σ) (stmt : Stmt)
        (rest : List Stmt) (s : σ),
      run interp (stmt :: rest) s =
        match interp stmt s with
        | Except.error e => (s, some e)
        | Except.ok s1 => run interp rest s1) := by
  refine ⟨by decide, by decide, fun σ ε interp s => rfl, fun σ ε interp stmt rest s => rfl⟩

/-- C7 counterexample: executing the PyTorch notebook does create a file on
disk — plt.savefig writes data_poisoning.pdf — so the claim that neither
notebook creates or modifies any file is false on the PyTorch notebook. -/
theorem c7_counterexample_torch_savefig :
    filesWritten torchStmts = ["data_poisoning.pdf"] ∧ filesWritten torchStmts ≠ [] := by
  constructor
  · rfl
  · intro h
    simp [filesWritten, torchStmts, st] at h

/-- C7 (corrected): the notebooks have no persistence layer beyond one chart
file: the TensorFlow notebook creates or modifies no file at all (its only
output is the chart shown on screen), while the PyTorch notebook writes
exactly one file, data_poisoning.pdf, via plt.savefig before showing the
chart. -/
theorem c7_file_outputs :
    filesWritten tfStmts = [] ∧
      filesWritten torchStmts = ["data_poisoning.pdf"] ∧
      kindCount tfStmts .showCall = 1 ∧ kindCount torchStmts .showCall = 1 := by
  refine ⟨rfl, rfl, by decide, by decide⟩

/- Dataset parameters (claim C5). -/

/-- Arguments each notebook passes to sklearn.datasets.make_blobs:
make_blobs(N, n, centers=np.array([[2, 2], [-2, -2]]), cluster_std=3). -/
structure BlobsConfig where
  nSamples : ℕ
  nFeatures : ℕ
  centers : List (Int × Int)
  clusterStd : ℚ
deriving DecidableEq

/-- The make_blobs arguments of the PyTorch notebook: N = 60, n = 2,
centers (2, 2) and (-2, -2), cluster_std = 3. -/
def torchBlobsConfig : BlobsConfig := ⟨60, 2, [(2, 2), (-2, -2)], 3⟩

/-- The make_blobs arguments of the TensorFlow notebook (identical). -/
def tfBlobsConfig : BlobsConfig := ⟨60, 2, [(2, 2), (-2, -2)], 3⟩

/-- The test_size argument both notebooks pass to train_test_split (.5). -/
def splitTestSize : ℚ := 1 / 2

/-- Number of test samples sklearn's train_test_split produces for a float
test_size: ceil(nSamples * testSize). -/
def nTest (nSamples : ℕ) (testSize : ℚ) : ℕ :=
  (Int.ceil ((nSamples : ℚ) * testSize)).toNat

/-- Number of training samples when train_size is left unset:
nSamples - nTest. -/
def nTrain (nSamples : ℕ) (testSize : ℚ) : ℕ := nSamples - nTest nSamples testSize

/-- C5: both notebooks build the same fixed toy dataset — N = 60 points in
dimension 2 from two blobs centered at (2, 2) and (-2, -2) with cluster
standard deviation 3 — and split it with test_size = 0.5 into exactly 30
training and 30 test points. -/
theorem c5_dataset_parameters :
    torchBlobsConfig = tfBlobsConfig ∧
      torchBlobsConfig = ⟨60, 2, [(2, 2), (-2, -2)], 3⟩ ∧
      splitTestSize = 1 / 2 ∧
      nTrain torchBlobsConfig.nSamples splitTestSize = 30 ∧
      nTest torchBlobsConfig.nSamples splitTestSize = 30 := by
  have hceil : nTest torchBlobsConfig.nSamples splitTestSize = 30 := by
    unfold nTest torchBlobsConfig splitTestSize
    norm_num
    rfl
  refine ⟨rfl, rfl, rfl, ?_, hceil⟩
  unfold nTrain
  rw [hceil]
  rfl

/- The gradient step mutates nothing it differentiates (claim C10). -/

/-- State of the PyTorch notebook around the backward call: the element
values of the four data tensors and the .grad slot of Xtrain (the only leaf
with requires_grad=True; it is None until backward populates it). -/
structure TorchState where
  XtrainVals : Fin 30 → Fin 2 → ℝ
  XtestVals : Fin 30 → Fin 2 → ℝ
  ytrainVals : Fin 30 → ℝ
  ytestVals : Fin 30 → ℝ
  XtrainGrad : Option (Fin 30 → Fin 2 → ℝ)

/-- loss.backward(): following torch autograd semantics, the computed gradient
g is accumulated into the .grad slot of the leaf tensor Xtrain (empty before
this single backward pass, hence set to g) and no tensor element value is
touched. -/
def backwardStep (g : Fin 30 → Fin 2 → ℝ) (s : TorchState) : TorchState :=
  ⟨s.XtrainVals, s.XtestVals, s.ytrainVals, s.ytestVals, some g⟩

/-- State of the TensorFlow notebook around the tape.gradient call: the
element values of the four constant tensors.  TF keeps no .grad slot. -/
structure TFState where
  XtrainVals : Fin 30 → Fin 2 → ℝ
  XtestVals : Fin 30 → Fin 2 → ℝ
  ytrainVals : Fin 30 → ℝ
  ytestVals : Fin 30 → ℝ

/-- tape.gradient(test_loss, Xtrain): returns the computed gradient g as a
fresh tensor and leaves the state untouched. -/
def tapeGradientStep (g : Fin 30 → Fin 2 → ℝ) (s : TFState) :
    (Fin 30 → Fin 2 → ℝ) × TFState := (g, s)

/-- C10: the gradient computation mutates none of the data it differentiates.
In the PyTorch notebook, backward populates only Xtrain.grad and leaves the
element values of Xtrain, Xtest, ytrain and ytest unchanged; in the
TensorFlow notebook, tape.gradient returns a new tensor and leaves the state,
Xtrain included, unchanged. -/
theorem c10_gradient_no_mutation (g : Fin 30 → Fin 2 → ℝ) (s : TorchState)
    (t : TFState) :
    (backwardStep g s).XtrainVals = s.XtrainVals ∧
      (backwardStep g s).XtestVals = s.XtestVals ∧
      (backwardStep g s).ytrainVals = s.ytrainVals ∧
      (backwardStep g s).ytestVals = s.ytestVals ∧
      (backwardStep g s).XtrainGrad = some g ∧
      (tapeGradientStep g t).2 = t ∧
      (tapeGradientStep g t).1 = g :=
  ⟨rfl, rfl, rfl, rfl, rfl, rfl, rfl⟩

end DataPoisoning
